import Mathlib

/- Verification development for the AVALUADOR valuation pipeline.

   Shallow embedding of the decision core of the repository:
   `api_server.py` (policy gates, decision orchestration),
   `vision_integration.py` (evidence extraction, damage inference, price
   composition), `modelo_prediccion.py` (predictor feature handling) and the
   market configuration of `config.py`.

   Numbers: Python floats are modelled as exact rationals, Python ints as Int.
   Strings are Lean Strings; Python string primitives (lower, substring
   containment, strip, the specific regular expressions used by the code) are
   modelled character-exactly for the ASCII plus Spanish Latin range in which
   all of the repository's keywords, labels and messages live.  The external
   collaborators (Azure vision client, the pickled sklearn model) are opaque
   parameters, as the spec classifies them. -/

/-! ### Python string primitives -/

def isDigitB (c : Char) : Bool := '0' ≤ c && c ≤ '9'

/-- Python `\s` for the ASCII range: space, tab, newline, carriage return,
vertical tab, form feed. -/
def isPySpace (c : Char) : Bool :=
  c == ' ' || c == '\t' || c == '\n' || c == '\x0d' || c == '\x0b' || c == '\x0c'

/-- Python `str.lower`, for ASCII letters and the Spanish accented letters that
occur in this codebase. -/
def pyLowerChar (c : Char) : Char :=
  if 'A' ≤ c && c ≤ 'Z' then Char.ofNat (c.toNat + 32)
  else if c == 'Ñ' then 'ñ' else if c == 'Á' then 'á' else if c == 'É' then 'é'
  else if c == 'Í' then 'í' else if c == 'Ó' then 'ó' else if c == 'Ú' then 'ú'
  else if c == 'Ü' then 'ü' else c

def pyUpperChar (c : Char) : Char :=
  if 'a' ≤ c && c ≤ 'z' then Char.ofNat (c.toNat - 32) else c

def pyLower (s : String) : String := ⟨s.data.map pyLowerChar⟩

/-- Python `str.capitalize`: first character upper-cased, the rest lower-cased. -/
def pyCapitalize (s : String) : String :=
  match s.data with
  | [] => ""
  | c :: t => ⟨pyUpperChar c :: t.map pyLowerChar⟩

/-- Does the needle (first argument) occur at the very start of the haystack? -/
def matchesAt : List Char → List Char → Bool
  | [], _ => true
  | _ :: _, [] => false
  | a :: n, b :: h => a == b && matchesAt n h

/-- Python `needle in haystack` substring containment. -/
def containsList : List Char → List Char → Bool
  | [], n => matchesAt n []
  | h@(_ :: t), n => matchesAt n h || containsList t n

def pyContains (h n : String) : Bool := containsList h.data n.data

def pyStartsWith (h n : String) : Bool := matchesAt n.data h.data

/-- Python `str.strip()`: whitespace removed from both ends. -/
def pyStrip (s : String) : String :=
  ⟨((s.data.dropWhile isPySpace).reverse.dropWhile isPySpace).reverse⟩

def firstSome {α : Type} (a b : Option α) : Option α :=
  match a with
  | some x => some x
  | none => b

/-- Consume the literal `lit` from the front of `l`, returning the rest. -/
def stripLit : List Char → List Char → Option (List Char)
  | [], l => some l
  | _ :: _, [] => none
  | a :: n, b :: l => if a == b then stripLit n l else none

def digitVal (c : Char) : Int := (c.toNat : Int) - 48

/-! ### `api_server.py`: generation inference

`_infer_generation` uses two regular expressions:
`core\s*i[3579]\D*(1[1-5])` and `ryzen\s*[3579]?\D*([3-9])\D*5[0-9]{2,3}`.
Both are modelled with the exact backtracking behaviour of `re.search`:
leftmost start position, greedy quantifiers.  For these patterns every
greedy star is deterministic (the character class of the star never overlaps
the character that must follow), and only the optional `[3579]?` needs an
explicit fallback alternative. -/

/-- Match `core\s*i[3579]\D*(1[1-5])` at the start of `l`, returning the
captured generation. -/
def matchIntelAt (l : List Char) : Option Int :=
  match stripLit "core".data l with
  | none => none
  | some l1 =>
    match l1.dropWhile isPySpace with
    | 'i' :: c :: rest =>
      if c == '3' || c == '5' || c == '7' || c == '9' then
        match rest.dropWhile (fun d => !(isDigitB d)) with
        | '1' :: d :: _ => if '1' ≤ d && d ≤ '5' then some (10 + digitVal d) else none
        | _ => none
      else none
    | _ => none

def scanIntel : List Char → Option Int
  | [] => matchIntelAt []
  | l@(_ :: t) => firstSome (matchIntelAt l) (scanIntel t)

/-- The `\D*([3-9])\D*5[0-9]{2,3}` tail of the Ryzen pattern. -/
def ryzenTail (l : List Char) : Option Int :=
  match l.dropWhile (fun d => !(isDigitB d)) with
  | c :: rest =>
    if '3' ≤ c && c ≤ '9' then
      match rest.dropWhile (fun d => !(isDigitB d)) with
      | '5' :: a :: b :: _ => if isDigitB a && isDigitB b then some (digitVal c) else none
      | _ => none
    else none
  | [] => none

/-- Match `ryzen\s*[3579]?\D*([3-9])\D*5[0-9]{2,3}` at the start of `l`. -/
def matchRyzenAt (l : List Char) : Option Int :=
  match stripLit "ryzen".data l with
  | none => none
  | some l1 =>
    match l1.dropWhile isPySpace with
    | c :: rest =>
      if c == '3' || c == '5' || c == '7' || c == '9' then
        firstSome (ryzenTail rest) (ryzenTail (c :: rest))
      else ryzenTail (c :: rest)
    | [] => none

def scanRyzen : List Char → Option Int
  | [] => matchRyzenAt []
  | l@(_ :: t) => firstSome (matchRyzenAt l) (scanRyzen t)

/-- `_infer_generation` of `api_server.py`.  Total: unmatched text falls to the
default 10.  The `int(m.group(1))` conversions cannot fail, so the
`try/except` bodies are the plain captures. -/
def inferGeneration (name : String) : Int :=
  if name == "" then 10
  else
    let s := (pyLower name).data
    match scanIntel s with
    | some g => g
    | none =>
      match scanRyzen s with
      | some g => g
      | none => 10

/-! ### `api_server.py`: policy gates -/

def msgFamiliaExcluida : String :=
  "Procesador excluido por política (Pentium/Celeron/Atom). Mínimo Core i3 10ª gen en adelante."

def msgI3SinGeneracion : String :=
  "Core i3 sin generación acreditada. Requisito mínimo: i3 10ª gen en adelante."

def msgI3Antiguo : String :=
  "Core i3 anterior a 10ª gen no aceptado. Requisito mínimo: i3 10ª gen en adelante."

/-- `_cpu_excluido_politica` of `api_server.py`.  `_infer_generation` is total,
so the `except` branch that would set `gen = None` is unreachable; `gen` is
kept as an `Option Int` to mirror the Python variable, always `some`. -/
def cpuExcluidoPolitica (name : String) : Bool × String :=
  let s := pyLower name
  if s == "" then (false, "")
  else if pyContains s "pentium" || pyContains s "celeron" || pyContains s "atom" then
    (true, msgFamiliaExcluida)
  else
    let gen : Option Int := some (inferGeneration name)
    if pyContains s "core i3" || pyContains s " i3" || pyStartsWith s "i3" then
      match gen with
      | none => (true, msgI3SinGeneracion)
      | some g => if g < 10 then (true, msgI3Antiguo) else (false, "")
    else (false, "")

/-- `_disco_excluido_politica` of `api_server.py`: `bool(int(es_ssd_val))` on an
integer flag is `es_ssd_val ≠ 0`. -/
def discoExcluidoPolitica (es_ssd_val : Int) : Bool × String :=
  if es_ssd_val == 0 then
    (true, "Disco HDD no permitido por política. Se requiere almacenamiento SSD.")
  else (false, "")

def cpuComunes : List String :=
  ["celeron", "pentium", "core i3", "core i5", "core i7", "core i9",
   "ryzen 3", "ryzen 5", "ryzen 7", "ryzen 9", "xeon",
   "apple m1", "apple m2", "apple m3"]

/-- `_cpu_is_known` of `api_server.py`. -/
def cpuIsKnown (name : String) : Bool :=
  cpuComunes.any (fun k => pyContains (pyLower name) k)

def apiBrands : List String :=
  ["lenovo", "hp", "dell", "asus", "acer", "msi", "apple", "huawei", "samsung",
   "microsoft", "razer", "alienware"]

/-- `_infer_brand` of `api_server.py`. -/
def inferBrand (text : String) : Option String :=
  (apiBrands.find? (fun b => pyContains (pyLower text) b)).map pyCapitalize

/-! ### `vision_integration.py`: brand and specification extraction -/

/-- `" ".join(lines)`. -/
def joinSpace (lines : List String) : String := String.intercalate " " lines

def knownBrands : List String :=
  ["acer", "apple", "asus", "dell", "hp", "huawei", "lenovo", "microsoft",
   "msi", "samsung"]

/-- `inferir_marca` of `vision_integration.py`: first truthy detected brand
verbatim; otherwise "victus" maps to "HP"; otherwise the first known brand
found in the joined lower-cased OCR text, capitalised. -/
def inferirMarca (prefer_brands : List String) (ocr_lines : List String) : Option String :=
  match prefer_brands.find? (fun b => b != "") with
  | some b => some b
  | none =>
    let text_all := pyLower (joinSpace ocr_lines)
    if pyContains text_all "victus" then some "HP"
    else (knownBrands.find? (fun b => pyContains text_all b)).map pyCapitalize

/-- After the `\d{1,3}` capture: `\s*` then the literal unit token. -/
def numAfter (tok : List Char) (v : Nat) (rest : List Char) : Option Nat :=
  match stripLit tok (rest.dropWhile isPySpace) with
  | some _ => some v
  | none => none

/-- Match `(\d{1,3})\s*tok` at the start of `l` (greedy: three digits first,
then two, then one), returning the captured number. -/
def matchNumUnitAt (tok : List Char) (l : List Char) : Option Nat :=
  match l with
  | a :: r1 =>
    if isDigitB a then
      let t1 := numAfter tok ((digitVal a).toNat) r1
      match r1 with
      | b :: r2 =>
        if isDigitB b then
          let t2 := numAfter tok ((digitVal a).toNat * 10 + (digitVal b).toNat) r2
          match r2 with
          | c :: r3 =>
            if isDigitB c then
              firstSome (numAfter tok ((digitVal a).toNat * 100 + (digitVal b).toNat * 10 +
                (digitVal c).toNat) r3) (firstSome t2 t1)
            else firstSome t2 t1
          | [] => firstSome t2 t1
        else t1
      | [] => t1
    else none
  | [] => none

def scanNumUnit (tok : List Char) : List Char → Option Nat
  | [] => matchNumUnitAt tok []
  | l@(_ :: t) => firstSome (matchNumUnitAt tok l) (scanNumUnit tok t)

/-- `_buscar_num_unidad` of `extraer_indicios_especificaciones`: for each
`(token, multiplier)` pattern in order, if the token occurs in the text and
`re.search(r"(\d{1,3})\s*" + token, text)` matches, return the number times
the multiplier; a token that occurs without a preceding number falls through
to the next pattern. -/
def buscarNumUnidad (patterns : List (String × Nat)) (text : List Char) : Option Nat :=
  match patterns with
  | [] => none
  | (tok, mult) :: rest =>
    if containsList text tok.data then
      match scanNumUnit tok.data text with
      | some n => some (n * mult)
      | none => buscarNumUnidad rest text
    else buscarNumUnidad rest text

/-- Match `i[3579]-?(\d{2})(\d{2,3})` at the start of `l`: the first two model
digits are the candidate generation, and at least two further digits must
follow. -/
def matchGenStickerAt (l : List Char) : Option Nat :=
  match l with
  | 'i' :: c :: rest =>
    if c == '3' || c == '5' || c == '7' || c == '9' then
      let rest' := match rest with
        | '-' :: r => r
        | r => r
      match rest' with
      | d1 :: d2 :: d3 :: d4 :: _ =>
        if isDigitB d1 && isDigitB d2 && isDigitB d3 && isDigitB d4 then
          some ((digitVal d1).toNat * 10 + (digitVal d2).toNat)
        else none
      | _ => none
    else none
  | _ => none

def scanGenSticker : List Char → Option Nat
  | [] => matchGenStickerAt []
  | l@(_ :: t) => firstSome (matchGenStickerAt l) (scanGenSticker t)

structure Indicios where
  ram_gb : Option Int
  capacidad_disco_gb : Option Int
  generacion_procesador : Option Int
  grafica_gamer_detectada : Bool
deriving DecidableEq, Repr

def ramPatterns : List (String × Nat) := [("gb ram", 1), ("ram gb", 1), ("ram", 1)]

def capPatterns : List (String × Nat) :=
  [("gb ssd", 1), ("gb hdd", 1), ("gb", 1), ("tb", 1024)]

def gamerGpuTokens : List String :=
  ["rtx", "gtx", "geforce", "radeon", " rx ", " rx", "rx "]

def integratedGpuTokens : List String := ["intel hd", "intel uhd", "intel iris"]

/-- `extraer_indicios_especificaciones` of `vision_integration.py`.  The
`gpu_model_detectado` display string is a diagnostic passthrough no claim
reads and is omitted; the gamer-GPU flag, which feeds the feature vector, is
modelled in full including the integrated-GPU override. -/
def extraerIndicios (ocr_lines : List String) : Indicios :=
  let text := (pyLower (joinSpace ocr_lines)).data
  let ram_gb := (buscarNumUnidad ramPatterns text).map (Int.ofNat)
  let capacidad_gb := (buscarNumUnidad capPatterns text).map (Int.ofNat)
  let generacion : Option Int :=
    match scanGenSticker text with
    | some g => if 1 < g && g < 20 then some (Int.ofNat g) else none
    | none => none
  let gamer0 := gamerGpuTokens.any (fun k => containsList text k.data)
  let grafica_gamer :=
    if integratedGpuTokens.any (fun k => containsList text k.data) then false else gamer0
  ⟨ram_gb, capacidad_gb, generacion, grafica_gamer⟩

/-! ### `vision_integration.py`: damage inference

`inferir_danios` matches whole words after `_normalize` (Unicode NFD, strip
combining marks, lower-case).  The pattern is built as
`r"\b" + re.escape(n).replace("\\ ", r"\\s+") + r"\b"`; since `re.escape`
renders a space as backslash-space and the replacement string is the *raw*
string `\\s+`, every space of a multi-word keyword becomes the regex
`\\s+`, i.e. a literal backslash followed by one or more letters `s` — the
embedding keeps this quirk of the source. -/

/-- NFD decomposition restricted to the Latin letters appearing in this
codebase's keywords and labels: the combining mark is dropped, leaving the
base letter.  All other characters decompose to themselves. -/
def normDecompChar (c : Char) : Char :=
  if c == 'á' || c == 'Á' then (if c == 'á' then 'a' else 'A')
  else if c == 'é' || c == 'É' then (if c == 'é' then 'e' else 'E')
  else if c == 'í' || c == 'Í' then (if c == 'í' then 'i' else 'I')
  else if c == 'ó' || c == 'Ó' then (if c == 'ó' then 'o' else 'O')
  else if c == 'ú' || c == 'Ú' then (if c == 'ú' then 'u' else 'U')
  else if c == 'ü' || c == 'Ü' then (if c == 'ü' then 'u' else 'U')
  else if c == 'ñ' then 'n' else if c == 'Ñ' then 'N'
  else c

/-- `_normalize` of `inferir_danios`: NFD, drop combining marks, lower. -/
def pyNormalize (l : List Char) : List Char := (l.map normDecompChar).map pyLowerChar

/-- Python `\w` over the normalised (ASCII) range. -/
def pyWordChar (c : Char) : Bool :=
  ('a' ≤ c && c ≤ 'z') || ('A' ≤ c && c ≤ 'Z') || isDigitB c || c == '_'

inductive WTok : Type
  | lit (c : Char)
  | splus
deriving DecidableEq

/-- Compile a normalised keyword into pattern tokens: each space becomes a
literal backslash followed by `s+` (see the module comment above); every
other character is a literal. -/
def compileKw (n : List Char) : List WTok :=
  (n.map (fun c => if c == ' ' then [WTok.lit '\\', WTok.splus] else [WTok.lit c])).flatten

/-- Match the token list at the start of the character list, then require the
closing `\b` word boundary (all keywords end in a word character). -/
def matchWToks : List WTok → List Char → Bool
  | toks, [] =>
    match toks with
    | [] => true
    | _ :: _ => false
  | toks, c :: rest =>
    match toks with
    | [] => !(pyWordChar c)
    | WTok.lit d :: ts => d == c && matchWToks ts rest
    | WTok.splus :: ts => c == 's' && (matchWToks ts rest || matchWToks (WTok.splus :: ts) rest)

/-- Try the pattern at every position whose preceding character is a
non-word character (the opening `\b`; all keywords start with a word
character). -/
def searchWordAux (toks : List WTok) : List Char → Bool
  | [] => false
  | c :: rest => (!(pyWordChar c) && matchWToks toks rest) || searchWordAux toks rest

/-- `contains_word` of `inferir_danios`: whole-word, accent-insensitive search
of `needle` in `haystack`. -/
def containsWord (haystack needle : String) : Bool :=
  let h := pyNormalize haystack.data
  let toks := compileKw (pyNormalize needle.data)
  matchWToks toks h || searchWordAux toks h

def danioKeywords : List (String × List String) :=
  [("pantalla_quebrada",
    ["crack", "cracked", "shattered", "screen crack", "pantalla rota", "pantalla quebrada"]),
   ("carcasa_danada",
    ["broken", "chipped", "dent", "bent", "abollado", "carcasa rota", "carcasa dañada"]),
   ("rayones", ["scratch", "scratched", "rayado", "rayones"]),
   ("bisagra_rota", ["hinge", "hinge broken", "bisagra rota"]),
   ("teclado_incompleto", ["missing key", "missing keys", "teclas faltantes", "tecla faltante"]),
   ("manchas", ["stain", "stained", "smudge", "manchas"])]

def danioFactorTable : List (String × ℚ) :=
  [("pantalla_quebrada", 60/100), ("carcasa_danada", 85/100), ("rayones", 90/100),
   ("bisagra_rota", 80/100), ("teclado_incompleto", 85/100), ("manchas", 92/100)]

/-- `factors.get(key, 1.0)`. -/
def danioFactors (key : String) : ℚ :=
  match danioFactorTable.find? (fun p => p.1 == key) with
  | some p => p.2
  | none => 1

structure KeyEval where
  found : Bool
  origen : Option String
  matched_kw : Option String
  muestra : Option String
deriving DecidableEq, Repr

/-- The OCR pass of one defect key: first keyword that matches the joined OCR
text wins; the sample line is the first single line containing it. -/
def firstOcrMatch (text_ocr : String) (ocr_lines : List String) :
    List String → Option (String × Option String)
  | [] => none
  | kw :: rest =>
    if containsWord text_ocr kw then
      some (kw, (ocr_lines.find? (fun line => containsWord line kw)).map pyStrip)
    else firstOcrMatch text_ocr ocr_lines rest

/-- The tags/objects fallback: per keyword, tags first, then objects. -/
def fallbackMatch (text_tags text_objs : String) : List String → Option (String × String)
  | [] => none
  | kw :: rest =>
    if containsWord text_tags kw then some ("tags", kw)
    else if containsWord text_objs kw then some ("objects", kw)
    else fallbackMatch text_tags text_objs rest

def carcasaExplicitTerms : List String := ["carcasa rota", "carcasa dañada"]

def carcasaTerms : List String := ["carcasa", "case", "chassis", "casing", "shell"]

def pantallaTerms : List String := ["pantalla", "screen"]

def anySourceContains (text_ocr text_tags text_objs : String) (terms : List String) : Bool :=
  terms.any (fun t => containsWord text_ocr t) ||
  terms.any (fun t => containsWord text_tags t) ||
  terms.any (fun t => containsWord text_objs t)

/-- One iteration of the `inferir_danios` keyword loop: keyword search with
source precedence, then the co-occurrence guards for `carcasa_danada` and
`pantalla_quebrada`. -/
def evalDanioKey (text_ocr text_tags text_objs : String) (ocr_lines : List String)
    (key : String) (kws : List String) : KeyEval :=
  let base : KeyEval :=
    match firstOcrMatch text_ocr ocr_lines kws with
    | some (kw, muestra) => ⟨true, some "ocr", some kw, muestra⟩
    | none =>
      match fallbackMatch text_tags text_objs kws with
      | some (origen, kw) => ⟨true, some origen, some kw, none⟩
      | none => ⟨false, none, none, none⟩
  if base.found && key == "carcasa_danada" then
    let explicito := anySourceContains text_ocr text_tags text_objs carcasaExplicitTerms
    let coocurrencia := anySourceContains text_ocr text_tags text_objs carcasaTerms
    if explicito || coocurrencia then base else { base with found := false }
  else if base.found && key == "pantalla_quebrada" then
    let tiene_superficie := anySourceContains text_ocr text_tags text_objs pantallaTerms
    if tiene_superficie then base else { base with found := false }
  else base

structure Evidencia where
  tipo : String
  keyword : Option String
  origen : Option String
  muestra : Option String
deriving DecidableEq, Repr

structure DanioResult where
  danios_detectados : List (String × Nat)
  factor_danio : ℚ
  motivos : List String
  evidencias : List Evidencia
deriving DecidableEq, Repr

/-- `key.replace("_", " ")`. -/
def underscoreToSpace (s : String) : String :=
  ⟨s.data.map (fun c => if c == '_' then ' ' else c)⟩

/-- The `factor_total` accumulation of the `inferir_danios` loop. -/
def danioStep (f : ℚ) (ke : String × KeyEval) : ℚ :=
  if ke.2.found then f * danioFactors ke.1 else f

/-- The keyword loop of `inferir_danios`: each defect key paired with its
evaluation against the three joined sources. -/
def danioEvals (tags objects ocr_lines : List String) : List (String × KeyEval) :=
  let text_ocr := joinSpace ocr_lines
  let text_tags := joinSpace tags
  let text_objs := joinSpace objects
  danioKeywords.map
    (fun kk => (kk.1, evalDanioKey text_ocr text_tags text_objs ocr_lines kk.1 kk.2))

/-- `inferir_danios` of `vision_integration.py`.  The single Python loop is
presented as a per-key evaluation followed by the independent accumulations
of its four outputs; the final factor is floored at 0.50. -/
def inferirDanios (tags objects ocr_lines : List String) : DanioResult :=
  let evals := danioEvals tags objects ocr_lines
  let detected := evals.map (fun ke => (ke.1, if ke.2.found then (1 : Nat) else 0))
  let factor_total := evals.foldl danioStep 1
  let motivos := (evals.filter (fun ke => ke.2.found)).map (fun ke => underscoreToSpace ke.1)
  let evidencias := (evals.filter (fun ke => ke.2.found)).map
    (fun ke => Evidencia.mk ke.1 ke.2.matched_kw ke.2.origen ke.2.muestra)
  ⟨detected, max factor_total (1/2), motivos, evidencias⟩

/-! ### `vision_integration.py`: feature composition -/

structure VisionResult where
  brands : List String
  objects : List String
  tags : List String
  ocr_lines : List String
deriving DecidableEq, Repr

/-- The user-supplied fields, `entrada_usuario.get(...)` per key: `none` for an
absent key or an explicit `None` value. -/
structure Entrada where
  es_ssd : Option Int
  capacidad_disco_gb : Option Int
  ram_gb : Option Int
  generacion_procesador : Option Int
  procesador_score : Option Int
  tiene_grafica : Option Int
  marca_score : Option Int
  grafica_gamer : Option Int
deriving DecidableEq, Repr

/-- Python `a or b` where `a` is an optional integer: falsy (`None` or `0`)
falls through to `b`. -/
def pyOrOpcion (a b : Option Int) : Option Int :=
  match a with
  | some v => if v == 0 then b else some v
  | none => b

/-- Python `a or d` with an integer default. -/
def pyOrID (a : Option Int) (d : Int) : Int :=
  match a with
  | some v => if v == 0 then d else v
  | none => d

/-- The default `marca_score_map` of `construir_features_desde_vision`. -/
def defaultMarcaScoreMap : List (String × Int) :=
  [("Lenovo", 5), ("HP", 5), ("Dell", 5), ("Asus", 4), ("Acer", 4), ("MSI", 4),
   ("Apple", 6), ("Huawei", 4), ("Samsung", 4), ("Microsoft", 5)]

def lookupScore (m : List (String × Int)) (k : String) : Option Int :=
  (m.find? (fun p => p.1 == k)).map (fun p => p.2)

/-- The feature dictionary built by `construir_features_desde_vision`.  The
diagnostic passthrough strings `_ocr_texto` and `_gpu_detectada` are not read
by any claim and are omitted; `_marca_detectada` is kept as
`marca_detectada`. -/
structure Features where
  marca_score : Option Int
  es_ssd : Option Int
  capacidad_disco_gb : Int
  ram_gb : Int
  generacion_procesador : Int
  procesador_score : Int
  tiene_grafica : Int
  marca_detectada : Option String
deriving DecidableEq, Repr

/-- `construir_features_desde_vision` of `vision_integration.py`. -/
def construirFeatures (vision_result : VisionResult) (entrada_usuario : Entrada)
    (marca_score_map : Option (List (String × Int))) : Features :=
  let marca := inferirMarca vision_result.brands vision_result.ocr_lines
  let indicios := extraerIndicios vision_result.ocr_lines
  let score_map := marca_score_map.getD defaultMarcaScoreMap
  let grafica_flag : Int :=
    match entrada_usuario.grafica_gamer with
    | some v => v
    | none =>
      match entrada_usuario.tiene_grafica with
      | some v => v
      | none => if indicios.grafica_gamer_detectada then 1 else 0
  { marca_score :=
      pyOrOpcion entrada_usuario.marca_score
        (match marca with
         | some m => lookupScore score_map m
         | none => some 4),
    es_ssd := entrada_usuario.es_ssd,
    capacidad_disco_gb :=
      pyOrID (pyOrOpcion entrada_usuario.capacidad_disco_gb indicios.capacidad_disco_gb) 256,
    ram_gb := pyOrID (pyOrOpcion entrada_usuario.ram_gb indicios.ram_gb) 8,
    generacion_procesador :=
      pyOrID (pyOrOpcion entrada_usuario.generacion_procesador indicios.generacion_procesador) 10,
    procesador_score := pyOrID entrada_usuario.procesador_score 4,
    tiene_grafica := if grafica_flag == 0 then 0 else 1,
    marca_detectada := marca }

/-! ### `modelo_prediccion.py`: `predecir_precio`

The persisted model and its training-column list are external state; the
column list equals `config.CARACTERISTICAS_MODELO` (the seven features the
dataset carries besides the target).  The body's `try/except` makes two
outcomes distinct from a successful prediction: the explicit missing-feature
check (`feature not in caracteristicas`, a membership test on the dict KEYS),
which logs the missing name and returns `None`; and any exception raised
while predicting — in particular numpy/sklearn reject a `None` feature
value — which the `except` turns into a logged generic error and `None`. -/

def modeloCaracteristicas : List String :=
  ["marca_score", "es_ssd", "capacidad_disco_gb", "ram_gb",
   "generacion_procesador", "procesador_score", "tiene_grafica"]

inductive PredictOutcome : Type
  | missingFeature (feature : String)
  | errorDuringPredict
  | precio (q : ℚ)
deriving DecidableEq, Repr

def lookupDict (d : List (String × Option ℚ)) (k : String) : Option (Option ℚ) :=
  (d.find? (fun p => p.1 == k)).map (fun p => p.2)

/-- The `valores` collection loop: the first model feature absent from the
dictionary keys aborts with its name. -/
def collectVals (feats : List String) (d : List (String × Option ℚ)) :
    String ⊕ List (Option ℚ) :=
  match feats with
  | [] => Sum.inr []
  | f :: fs =>
    match lookupDict d f with
    | none => Sum.inl f
    | some v =>
      match collectVals fs d with
      | Sum.inl g => Sum.inl g
      | Sum.inr vs => Sum.inr (v :: vs)

def allSome : List (Option ℚ) → Option (List ℚ)
  | [] => some []
  | some q :: t => (allSome t).map (fun l => q :: l)
  | none :: _ => none

/-- `predecir_precio` of `modelo_prediccion.py` with a loaded model:
`predict` is the opaque fitted estimator. -/
def predecirPrecio (model_feats : List String) (predict : List ℚ → ℚ)
    (caracteristicas : List (String × Option ℚ)) : PredictOutcome :=
  match collectVals model_feats caracteristicas with
  | Sum.inl f => PredictOutcome.missingFeature f
  | Sum.inr vals =>
    match allSome vals with
    | some qs => PredictOutcome.precio (predict qs)
    | none => PredictOutcome.errorDuringPredict

/-- The feature dict as passed to `modelo.predecir_precio` (the diagnostic
string entries carry no numeric value and are not model features). -/
def featuresToDict (f : Features) : List (String × Option ℚ) :=
  [("marca_score", f.marca_score.map (fun v => (v : ℚ))),
   ("es_ssd", f.es_ssd.map (fun v => (v : ℚ))),
   ("capacidad_disco_gb", some (f.capacidad_disco_gb : ℚ)),
   ("ram_gb", some (f.ram_gb : ℚ)),
   ("generacion_procesador", some (f.generacion_procesador : ℚ)),
   ("procesador_score", some (f.procesador_score : ℚ)),
   ("tiene_grafica", some (f.tiene_grafica : ℚ))]

/-! ### `config.py`: market rules -/

def MARKET_factor_compraventa : ℚ := 44/100

def MARKET_min_prestamo : ℚ := 100000

def MARKET_aplicar_factor_ml : Bool := true

/-! ### `vision_integration.py`: `predecir_precio_con_imagenes`

The Azure analysis loop that builds `combined` and the pickled model are the
two external collaborators; they enter as the already-combined
`VisionResult` and the opaque `predict` function on the built features. -/

structure Resultado where
  precio_predicho : Option ℚ
  features : Features
  precio_base_ml : Option ℚ
  factor_danio : ℚ
  precio_post_danio : Option ℚ
  factor_compraventa : ℚ
  min_prestamo : ℚ
  objetivo_precio : Option ℚ
  precio_mercado_sin_minimo : Option ℚ
  danios : DanioResult
deriving DecidableEq, Repr

/-- Python `x or 1.0` on the damage factor. -/
def pyOrQ (x d : ℚ) : ℚ := if x == 0 then d else x

/-- `predecir_precio_con_imagenes` of `vision_integration.py` (price
composition part; the `detalle` dictionary is flattened into the result
record).  Dividing by a zero `precio` raises `ZeroDivisionError`, which the
`try/except` swallows, leaving `factor` at its override/default value. -/
def predecirPrecioConImagenes (combined : VisionResult) (entrada_usuario : Entrada)
    (predict : Features → Option ℚ) (factor_mercado objetivo_precio : Option ℚ) : Resultado :=
  let features := construirFeatures combined entrada_usuario none
  let danios := inferirDanios combined.tags combined.objects combined.ocr_lines
  let precio0 := predict features
  let precio_base_ml := precio0
  let danio_factor := pyOrQ danios.factor_danio 1
  let precio1 := precio0.map (fun p => p * danio_factor)
  let precio_post_danio := precio1
  let factor0 := factor_mercado.getD MARKET_factor_compraventa
  let factor :=
    match precio1, objetivo_precio with
    | some p, some obj =>
      if p == 0 then factor0
      else if 0 < obj / p then obj / p else factor0
    | _, _ => factor0
  let minimo := MARKET_min_prestamo
  let precio_mercado_sin_minimo :=
    match precio1 with
    | some p => if MARKET_aplicar_factor_ml then some (p * factor) else none
    | none => none
  let precioF :=
    match precio1 with
    | some p => if MARKET_aplicar_factor_ml then some (max minimo (p * factor)) else some p
    | none => none
  { precio_predicho := precioF,
    features := features,
    precio_base_ml := precio_base_ml,
    factor_danio := danios.factor_danio,
    precio_post_danio := precio_post_danio,
    factor_compraventa := factor,
    min_prestamo := minimo,
    objetivo_precio := objetivo_precio,
    precio_mercado_sin_minimo := precio_mercado_sin_minimo,
    danios := danios }

/-! ### `api_server.py`: the `/avaluo` decision -/

/-- Python `round` on a float: banker's rounding, half to even. -/
def pyRound (q : ℚ) : Int :=
  let n := ⌊q⌋
  let r := q - n
  if r < 1/2 then n
  else if 1/2 < r then n + 1
  else if n % 2 == 0 then n else n + 1

def digitChar (d : Nat) : Char :=
  if d = 0 then '0' else if d = 1 then '1' else if d = 2 then '2' else if d = 3 then '3'
  else if d = 4 then '4' else if d = 5 then '5' else if d = 6 then '6' else if d = 7 then '7'
  else if d = 8 then '8' else '9'

/-- Decimal digits of `n`, least significant first. -/
def natDigitsRev (n : Nat) : List Char :=
  if n < 10 then [digitChar n] else digitChar (n % 10) :: natDigitsRev (n / 10)
decreasing_by
  exact Nat.div_lt_self (by omega) (by norm_num)

/-- Insert a comma after every three characters while a fourth remains. -/
def chunk3 : List Char → List Char
  | [] => []
  | [a] => [a]
  | [a, b] => [a, b]
  | [a, b, c] => [a, b, c]
  | a :: b :: c :: rest => a :: b :: c :: ',' :: chunk3 rest

/-- Python `f"{n:,}"` on an integer: thousands separated by commas. -/
def formatMiles (n : Int) : String :=
  if n < 0 then "-" ++ ⟨(chunk3 (natDigitsRev n.natAbs)).reverse⟩
  else ⟨(chunk3 (natDigitsRev n.toNat)).reverse⟩

def mensajeBloqueo : String :=
  "No es posible realizar el contrato, para mayor información comunicarse a la línea de atención o a una sede física"

def advCpuDesconocido : String :=
  "El procesador ingresado no coincide con familias comunes (Celeron, Pentium, Core i*, Ryzen *). Verifica el nombre."

def advMarcaDesconocida : String :=
  "No se reconoce la marca en 'Marca / Modelo'. Ingresa HP, Dell, Lenovo, Asus, Acer, etc., o deja el campo vacío."

/-- The economic-floor block of `/avaluo`: both numbers present and the
pre-floor market price strictly below the minimum; a missing value leaves the
flag false (the `except` branch). -/
def bloqueadoMinimo (sin_minimo minimo : Option ℚ) : Bool :=
  match sin_minimo, minimo with
  | some s, some m => decide (s < m)
  | _, _ => false

/-- Python `opt or ""` on an optional string. -/
def pyOrStr (o : Option String) : String := (o.getD "")

/-- Python truthiness of an optional string. -/
def pyTruthyStr (o : Option String) : Bool :=
  match o with
  | some s => s != ""
  | none => false

structure Decision where
  bloqueado : Bool
  mensaje : String
  advertencias : List String
deriving DecidableEq, Repr

/-- The decision tail of the `/avaluo` handler (`api_server.py`): the three
block flags, their disjunction, the client message and the advisory list.
`sin_minimo`/`minimo` are `detalle["precio_mercado_sin_minimo"]` and
`detalle["min_prestamo"]` of the integration result; `precio_final_num` is
the validated numeric `precio_predicho`. -/
def avaluoDecision (sin_minimo minimo : Option ℚ) (precio_final_num : ℚ)
    (procesador : Option String) (es_ssd : Int) (marca_modelo : Option String) : Decision :=
  let bloqueado_minimo := bloqueadoMinimo sin_minimo minimo
  let cpu := cpuExcluidoPolitica (pyOrStr procesador)
  let disco := discoExcluidoPolitica es_ssd
  let bloqueado := bloqueado_minimo || cpu.1 || disco.1
  let mensaje :=
    if bloqueado then mensajeBloqueo
    else "Tu avalúo del pc enviado es de $" ++ formatMiles (pyRound precio_final_num) ++
      ". ¿Deseas continuar con el contrato?"
  let advertencias :=
    (if pyTruthyStr procesador && !(cpuIsKnown (procesador.getD "")) then [advCpuDesconocido]
     else []) ++
    (if cpu.2 != "" then [cpu.2] else []) ++
    (if disco.2 != "" then [disco.2] else []) ++
    (if pyTruthyStr marca_modelo && (inferBrand (pyOrStr marca_modelo)).isNone then
      [advMarcaDesconocida] else [])
  ⟨bloqueado, mensaje, advertencias⟩

/-! ### Concrete fixtures used by witnesses and counterexamples -/

/-- An evidence bundle with no images' worth of findings. -/
def emptyVision : VisionResult := ⟨[], [], [], []⟩

/-- The `/avaluo` form defaults: `es_ssd=1`, `capacidad_disco_gb=256`,
`ram_gb=8`, no processor text (score 4, generation 10), `tiene_grafica=0`,
no brand. -/
def entradaDefecto : Entrada :=
  ⟨some 1, some 256, some 8, some 10, some 4, some 0, none, none⟩

/-! ### Helper lemmas -/

theorem pyContains_empty_celeron : pyContains "" "celeron" = false := by decide

theorem pyContains_empty_pentium : pyContains "" "pentium" = false := by decide

theorem pyContains_empty_atom : pyContains "" "atom" = false := by decide

/-! ### C2 -/

/-- C2: for the mid-tier Core i3 family the spec (and the gate's own
docstring) require a block when no generation can be determined from the
text; the code instead lets `_infer_generation` fall back to the default 10,
so the bare text "core i3" — which carries no generation information —
passes the gate. -/
theorem cpu_gate_core_i3_sin_generacion_pasa :
    inferGeneration "core i3" = 10 ∧ cpuExcluidoPolitica "core i3" = (false, "") := by
  decide

/-! ### C3 -/

/-- C3: any processor text whose lower-casing contains "celeron", "pentium"
or "atom" (hence any letter case of those family names) is blocked by the
CPU policy with a non-empty reason. -/
theorem cpu_politica_bloquea_familias_excluidas (name : String)
    (h : pyContains (pyLower name) "celeron" = true ∨
      pyContains (pyLower name) "pentium" = true ∨
      pyContains (pyLower name) "atom" = true) :
    (cpuExcluidoPolitica name).1 = true ∧ (cpuExcluidoPolitica name).2 ≠ "" := by
  have hne : (pyLower name == "") = false := by
    rw [beq_eq_false_iff_ne]
    intro he
    rw [he] at h
    rcases h with h | h | h
    · exact absurd h (by rw [pyContains_empty_celeron]; exact Bool.false_ne_true)
    · exact absurd h (by rw [pyContains_empty_pentium]; exact Bool.false_ne_true)
    · exact absurd h (by rw [pyContains_empty_atom]; exact Bool.false_ne_true)
  have hor : (pyContains (pyLower name) "pentium" || pyContains (pyLower name) "celeron" ||
      pyContains (pyLower name) "atom") = true := by
    rcases h with h | h | h <;> simp [h]
  have hres : cpuExcluidoPolitica name = (true, msgFamiliaExcluida) := by
    simp [cpuExcluidoPolitica, hne, hor]
  rw [hres]
  exact ⟨rfl, by decide⟩

theorem cpu_politica_bloquea_familias_excluidas_witness :
    (cpuExcluidoPolitica "Intel CeLeRoN N4020").1 = true ∧
    (cpuExcluidoPolitica "Intel CeLeRoN N4020").2 ≠ "" :=
  cpu_politica_bloquea_familias_excluidas "Intel CeLeRoN N4020" (Or.inl (by decide))

/-! ### C4 -/

/-- C4: the storage policy blocks exactly when the SSD flag normalizes to
false/0, with a non-empty reason; any non-zero flag passes with an empty
reason. -/
theorem disco_politica_caracterizacion (v : Int) :
    ((discoExcluidoPolitica v).1 = true ↔ v = 0) ∧
    (v = 0 → (discoExcluidoPolitica v).2 ≠ "") ∧
    (v ≠ 0 → discoExcluidoPolitica v = (false, "")) := by
  by_cases h : v = 0
  · subst h
    refine ⟨by simp [discoExcluidoPolitica], fun _ => by decide, fun hc => absurd rfl hc⟩
  · refine ⟨?_, fun hc => absurd hc h, fun _ => by simp [discoExcluidoPolitica, h]⟩
    simp [discoExcluidoPolitica, h]

theorem disco_politica_caracterizacion_witness :
    (discoExcluidoPolitica 0).1 = true ∧ (discoExcluidoPolitica 0).2 ≠ "" ∧
    discoExcluidoPolitica 1 = (false, "") :=
  ⟨(disco_politica_caracterizacion 0).1.mpr rfl,
   (disco_politica_caracterizacion 0).2.1 rfl,
   (disco_politica_caracterizacion 1).2.2 (by decide)⟩

/-! ### C5 -/

theorem inferirDanios_factor_eq (tags objects ocr_lines : List String) :
    (inferirDanios tags objects ocr_lines).factor_danio =
      max ((danioEvals tags objects ocr_lines).foldl danioStep 1) (1/2) := rfl

theorem inferirDanios_detectados_eq (tags objects ocr_lines : List String) :
    (inferirDanios tags objects ocr_lines).danios_detectados =
      (danioEvals tags objects ocr_lines).map
        (fun ke => (ke.1, if ke.2.found then (1 : Nat) else 0)) := rfl

theorem danioFactors_pantalla : danioFactors "pantalla_quebrada" = 60/100 := rfl

theorem danioFactors_carcasa : danioFactors "carcasa_danada" = 85/100 := rfl

theorem danioFactors_rayones : danioFactors "rayones" = 90/100 := rfl

theorem danioFactors_bisagra : danioFactors "bisagra_rota" = 80/100 := rfl

theorem danioFactors_teclado : danioFactors "teclado_incompleto" = 85/100 := rfl

theorem danioFactors_manchas : danioFactors "manchas" = 92/100 := rfl

theorem danioKeywords_factors_lt_one :
    ∀ kk ∈ danioKeywords, 0 < danioFactors kk.1 ∧ danioFactors kk.1 < 1 := by
  intro kk hkk
  simp only [danioKeywords, List.mem_cons, List.not_mem_nil, or_false] at hkk
  rcases hkk with rfl | rfl | rfl | rfl | rfl | rfl <;>
    norm_num [danioFactors_pantalla, danioFactors_carcasa, danioFactors_rayones,
      danioFactors_bisagra, danioFactors_teclado, danioFactors_manchas]

/-- Invariant of the damage-factor accumulation: starting from a positive
accumulator and multiplying only factors strictly between 0 and 1, the fold
stays positive, never increases, and is unchanged exactly when no key was
found. -/
theorem danioFold_inv (l : List (String × KeyEval)) (a : ℚ) (ha : 0 < a)
    (hf : ∀ p ∈ l, 0 < danioFactors p.1 ∧ danioFactors p.1 < 1) :
    0 < l.foldl danioStep a ∧ l.foldl danioStep a ≤ a ∧
      (l.foldl danioStep a = a ↔ ∀ p ∈ l, p.2.found = false) := by
  induction l generalizing a with
  | nil => simpa using ha
  | cons hd tl ih =>
    have hhd := hf hd (List.mem_cons_self _ _)
    have hf' : ∀ p ∈ tl, 0 < danioFactors p.1 ∧ danioFactors p.1 < 1 :=
      fun p hp => hf p (List.mem_cons_of_mem _ hp)
    rw [List.foldl_cons]
    by_cases hfound : hd.2.found = true
    · have hstep : danioStep a hd = a * danioFactors hd.1 := by simp [danioStep, hfound]
      rw [hstep]
      have ha' : 0 < a * danioFactors hd.1 := mul_pos ha hhd.1
      obtain ⟨h1, h2, _⟩ := ih (a * danioFactors hd.1) ha' hf'
      have hlt : a * danioFactors hd.1 < a := by
        have := mul_lt_mul_of_pos_left hhd.2 ha
        simpa using this
      refine ⟨h1, le_trans h2 (le_of_lt hlt), ?_, ?_⟩
      · intro heq
        have hcontr := lt_of_le_of_lt h2 hlt
        rw [heq] at hcontr
        exact absurd hcontr (lt_irrefl a)
      · intro hall
        exact absurd (hall hd (List.mem_cons_self _ _)) (by simp [hfound])
    · have hstep : danioStep a hd = a := by simp [danioStep, hfound]
      rw [hstep]
      obtain ⟨h1, h2, h3⟩ := ih a ha hf'
      refine ⟨h1, h2, ?_⟩
      rw [h3]
      constructor
      · intro hall p hp
        rcases List.mem_cons.mp hp with hp' | hp'
        · rw [hp']
          exact Bool.eq_false_iff.mpr hfound
        · exact hall p hp'
      · intro hall p hp
        exact hall p (List.mem_cons_of_mem _ hp)

/-- C5: for every combination of tags, objects and recognized text lines the
damage factor lies in [0.50, 1.00], and it equals 1.00 exactly when no
defect kind was detected. -/
theorem inferir_danios_factor_en_rango (tags objects ocr_lines : List String) :
    1/2 ≤ (inferirDanios tags objects ocr_lines).factor_danio ∧
    (inferirDanios tags objects ocr_lines).factor_danio ≤ 1 ∧
    ((inferirDanios tags objects ocr_lines).factor_danio = 1 ↔
      ((inferirDanios tags objects ocr_lines).danios_detectados.all
        (fun q => q.2 == 0)) = true) := by
  have hfac : ∀ p ∈ danioEvals tags objects ocr_lines,
      0 < danioFactors p.1 ∧ danioFactors p.1 < 1 := by
    intro p hp
    rw [danioEvals] at hp
    simp only [List.mem_map] at hp
    obtain ⟨kk, hkk, hpe⟩ := hp
    have h1 : p.1 = kk.1 := by rw [← hpe]
    rw [h1]
    exact danioKeywords_factors_lt_one kk hkk
  obtain ⟨h1, h2, h3⟩ := danioFold_inv (danioEvals tags objects ocr_lines) 1 one_pos hfac
  rw [inferirDanios_factor_eq, inferirDanios_detectados_eq]
  have hfold := (danioEvals tags objects ocr_lines).foldl danioStep 1
  refine ⟨le_max_right _ _, max_le h2 (by norm_num), ?_⟩
  have hmax : max ((danioEvals tags objects ocr_lines).foldl danioStep 1) (1/2) = 1 ↔
      (danioEvals tags objects ocr_lines).foldl danioStep 1 = 1 := by
    constructor
    · intro hm
      by_cases hle : (danioEvals tags objects ocr_lines).foldl danioStep 1 ≤ 1/2
      · rw [max_eq_right hle] at hm
        norm_num at hm
      · rw [max_eq_left (le_of_lt (lt_of_not_le hle))] at hm
        exact hm
    · intro hm
      rw [hm]
      norm_num
  rw [hmax, h3]
  constructor
  · intro hall
    rw [List.all_eq_true]
    intro q hq
    simp only [List.mem_map] at hq
    obtain ⟨p, hp, hpq⟩ := hq
    rw [← hpq, hall p hp]
    simp
  · intro hall p hp
    have hq := (List.all_eq_true.mp hall) _ (List.mem_map_of_mem _ hp)
    by_cases hb : p.2.found = true
    · simp [hb] at hq
    · exact Bool.eq_false_iff.mpr hb

/-! ### Evaluation helpers for the no-evidence fixture -/

theorem factorDanio_empty : (inferirDanios ([] : List String) [] []).factor_danio = 1 := by
  rw [inferirDanios_factor_eq]
  have h1 : (danioEvals ([] : List String) [] []).foldl danioStep 1 = 1 := rfl
  rw [h1]
  exact max_eq_left (by norm_num)

theorem pyOrQ_one : pyOrQ 1 1 = 1 := rfl

/-- With no vision evidence the damage factor is 1, so the post-damage price
is the predictor price itself. -/
theorem post_danio_sin_evidencia (base : ℚ) (mf obj : Option ℚ) :
    (predecirPrecioConImagenes emptyVision entradaDefecto (fun _ => some base) mf
      obj).precio_post_danio = some base := by
  have h0 : (predecirPrecioConImagenes emptyVision entradaDefecto (fun _ => some base) mf
      obj).precio_post_danio =
      some (base * pyOrQ (inferirDanios ([] : List String) [] []).factor_danio 1) := rfl
  rw [h0, factorDanio_empty, pyOrQ_one, mul_one]

/-! ### C1 -/

/-- C1: with a non-negative predictor price and market factor (and no target
price), the composed final price is `max(floor, price_post_damage × factor)`,
the economic floor fires exactly when the pre-floor price is below the
configured floor, and composing again with identical inputs is the identical
output. -/
theorem composer_precio_final_max_piso (combined : VisionResult) (entrada : Entrada)
    (base mf : ℚ) (hbase : 0 ≤ base) (hmf : 0 ≤ mf) :
    (∀ post : ℚ,
      (predecirPrecioConImagenes combined entrada (fun _ => some base) (some mf)
        none).precio_post_danio = some post →
      (predecirPrecioConImagenes combined entrada (fun _ => some base) (some mf)
        none).precio_predicho = some (max MARKET_min_prestamo (post * mf)) ∧
      (bloqueadoMinimo
          (predecirPrecioConImagenes combined entrada (fun _ => some base) (some mf)
            none).precio_mercado_sin_minimo
          (some (predecirPrecioConImagenes combined entrada (fun _ => some base) (some mf)
            none).min_prestamo) = true ↔
        post * mf < MARKET_min_prestamo)) ∧
    predecirPrecioConImagenes combined entrada (fun _ => some base) (some mf) none =
      predecirPrecioConImagenes combined entrada (fun _ => some base) (some mf) none := by
  refine ⟨?_, rfl⟩
  intro post hpost
  have hdf : (predecirPrecioConImagenes combined entrada (fun _ => some base) (some mf)
      none).precio_post_danio =
      some (base * pyOrQ (inferirDanios combined.tags combined.objects
        combined.ocr_lines).factor_danio 1) := rfl
  rw [hdf] at hpost
  have hbd : base * pyOrQ (inferirDanios combined.tags combined.objects
      combined.ocr_lines).factor_danio 1 = post := Option.some.inj hpost
  constructor
  · have hfin : (predecirPrecioConImagenes combined entrada (fun _ => some base) (some mf)
        none).precio_predicho =
        some (max MARKET_min_prestamo (base * pyOrQ (inferirDanios combined.tags
          combined.objects combined.ocr_lines).factor_danio 1 * mf)) := rfl
    rw [hfin, hbd]
  · have hsm : (predecirPrecioConImagenes combined entrada (fun _ => some base) (some mf)
        none).precio_mercado_sin_minimo =
        some (base * pyOrQ (inferirDanios combined.tags combined.objects
          combined.ocr_lines).factor_danio 1 * mf) := rfl
    have hmp : (predecirPrecioConImagenes combined entrada (fun _ => some base) (some mf)
        none).min_prestamo = MARKET_min_prestamo := rfl
    rw [hsm, hmp, hbd]
    simp [bloqueadoMinimo]

theorem composer_precio_final_max_piso_witness :
    (predecirPrecioConImagenes emptyVision entradaDefecto (fun _ => some 2000000)
      (some (44/100)) none).precio_predicho = some 880000 := by
  have h := (composer_precio_final_max_piso emptyVision entradaDefecto 2000000 (44/100)
    (by norm_num) (by norm_num)).1 2000000
    (post_danio_sin_evidencia 2000000 (some (44/100)) none)
  rw [h.1]
  have h1 : (2000000 : ℚ) * (44/100) = 880000 := by norm_num
  rw [h1, max_eq_right (by norm_num [MARKET_min_prestamo])]

/-! ### C6 -/

/-- C6: the economic floor block fires whenever the pre-floor price is below
the floor, the overall blocked flag is the disjunction of the economic, CPU
and storage blocks, and Scenario D (base 100,000, no damage, default market
factor 0.44, floor 100,000) yields final price 100,000, the economic floor
fired, and a blocked decision. -/
theorem avaluo_bloqueo_disyuncion_y_escenario_d :
    (∀ (x m pf : ℚ) (proc : Option String) (ssd : Int) (marca : Option String),
      x < m → (avaluoDecision (some x) (some m) pf proc ssd marca).bloqueado = true) ∧
    (∀ (sin_minimo minimo : Option ℚ) (pf : ℚ) (proc : Option String) (ssd : Int)
      (marca : Option String),
      (avaluoDecision sin_minimo minimo pf proc ssd marca).bloqueado =
        (bloqueadoMinimo sin_minimo minimo || (cpuExcluidoPolitica (pyOrStr proc)).1 ||
          (discoExcluidoPolitica ssd).1)) ∧
    ((predecirPrecioConImagenes emptyVision entradaDefecto (fun _ => some 100000) none
        none).precio_predicho = some 100000 ∧
     (predecirPrecioConImagenes emptyVision entradaDefecto (fun _ => some 100000) none
        none).precio_mercado_sin_minimo = some 44000 ∧
     bloqueadoMinimo
       (predecirPrecioConImagenes emptyVision entradaDefecto (fun _ => some 100000) none
         none).precio_mercado_sin_minimo
       (some (predecirPrecioConImagenes emptyVision entradaDefecto (fun _ => some 100000)
         none none).min_prestamo) = true ∧
     (avaluoDecision
       (predecirPrecioConImagenes emptyVision entradaDefecto (fun _ => some 100000) none
         none).precio_mercado_sin_minimo
       (some (predecirPrecioConImagenes emptyVision entradaDefecto (fun _ => some 100000)
         none none).min_prestamo)
       100000 none 1 none).bloqueado = true) := by
  refine ⟨?_, fun _ _ _ _ _ _ => rfl, ?_⟩
  · intro x m pf proc ssd marca hlt
    have hb : (avaluoDecision (some x) (some m) pf proc ssd marca).bloqueado =
        (bloqueadoMinimo (some x) (some m) || (cpuExcluidoPolitica (pyOrStr proc)).1 ||
          (discoExcluidoPolitica ssd).1) := rfl
    rw [hb]
    have hmin : bloqueadoMinimo (some x) (some m) = true := by
      simp [bloqueadoMinimo, hlt]
    rw [hmin]
    simp
  · have hsm : (predecirPrecioConImagenes emptyVision entradaDefecto (fun _ => some 100000)
        none none).precio_mercado_sin_minimo = some 44000 := by
      have h0 : (predecirPrecioConImagenes emptyVision entradaDefecto (fun _ => some 100000)
          none none).precio_mercado_sin_minimo =
          some (100000 * pyOrQ (inferirDanios ([] : List String) [] []).factor_danio 1 *
            MARKET_factor_compraventa) := rfl
      rw [h0, factorDanio_empty, pyOrQ_one, mul_one]
      norm_num [MARKET_factor_compraventa]
    have hmp : (predecirPrecioConImagenes emptyVision entradaDefecto (fun _ => some 100000)
        none none).min_prestamo = MARKET_min_prestamo := rfl
    have hfin : (predecirPrecioConImagenes emptyVision entradaDefecto (fun _ => some 100000)
        none none).precio_predicho = some 100000 := by
      have h0 : (predecirPrecioConImagenes emptyVision entradaDefecto (fun _ => some 100000)
          none none).precio_predicho =
          some (max MARKET_min_prestamo
            (100000 * pyOrQ (inferirDanios ([] : List String) [] []).factor_danio 1 *
              MARKET_factor_compraventa)) := rfl
      rw [h0, factorDanio_empty, pyOrQ_one, mul_one]
      have h1 : (100000 : ℚ) * MARKET_factor_compraventa = 44000 := by
        norm_num [MARKET_factor_compraventa]
      rw [h1, max_eq_left (by norm_num [MARKET_min_prestamo])]
      norm_num [MARKET_min_prestamo]
    have hmin : bloqueadoMinimo
        (predecirPrecioConImagenes emptyVision entradaDefecto (fun _ => some 100000) none
          none).precio_mercado_sin_minimo
        (some (predecirPrecioConImagenes emptyVision entradaDefecto (fun _ => some 100000)
          none none).min_prestamo) = true := by
      rw [hsm, hmp]
      simp only [bloqueadoMinimo]
      rw [decide_eq_true_eq]
      norm_num [MARKET_min_prestamo]
    refine ⟨hfin, hsm, hmin, ?_⟩
    have hb : (avaluoDecision
        (predecirPrecioConImagenes emptyVision entradaDefecto (fun _ => some 100000) none
          none).precio_mercado_sin_minimo
        (some (predecirPrecioConImagenes emptyVision entradaDefecto (fun _ => some 100000)
          none none).min_prestamo) 100000 none 1 none).bloqueado =
        (bloqueadoMinimo
          (predecirPrecioConImagenes emptyVision entradaDefecto (fun _ => some 100000) none
            none).precio_mercado_sin_minimo
          (some (predecirPrecioConImagenes emptyVision entradaDefecto (fun _ => some 100000)
            none none).min_prestamo) ||
          (cpuExcluidoPolitica (pyOrStr none)).1 || (discoExcluidoPolitica 1).1) := rfl
    rw [hb, hmin]
    simp

theorem avaluo_bloqueo_disyuncion_y_escenario_d_witness :
    (avaluoDecision (some 44000) (some 100000) 100000 none 1 none).bloqueado = true :=
  avaluo_bloqueo_disyuncion_y_escenario_d.1 44000 100000 100000 none 1 none (by norm_num)

/-! ### C7 -/

/-- C7 (counterexample): with a supplied target of 0 and a positive
post-damage price of 100, the claim as stated demands an effective market
factor of 0/100 = 0; the code keeps the configured default 0.44 because the
computed quotient is not strictly positive. -/
theorem objetivo_no_positivo_conserva_factor :
    (predecirPrecioConImagenes emptyVision entradaDefecto (fun _ => some 100) none
      (some 0)).factor_compraventa = 44/100 ∧ ¬((44 : ℚ)/100 = 0/100) := by
  refine ⟨?_, by norm_num⟩
  have hfac : (predecirPrecioConImagenes emptyVision entradaDefecto (fun _ => some 100) none
      (some 0)).factor_compraventa =
      (if ((100 : ℚ) * pyOrQ (inferirDanios ([] : List String) [] []).factor_danio 1 == 0) =
          true then MARKET_factor_compraventa
       else if 0 < (0 : ℚ) / (100 * pyOrQ (inferirDanios ([] : List String) [] []).factor_danio 1)
         then (0 : ℚ) / (100 * pyOrQ (inferirDanios ([] : List String) [] []).factor_danio 1)
       else MARKET_factor_compraventa) := rfl
  rw [hfac, factorDanio_empty, pyOrQ_one, mul_one]
  have h0 : ((100 : ℚ) == 0) = false := beq_eq_false_iff_ne.mpr (by norm_num)
  rw [h0]
  simp [MARKET_factor_compraventa]

/-- C7 (amended): when a target final price is supplied, a positive computed
quotient `target / price_post_damage` overrides any explicit override or
default factor; when the post-damage price is 0, or the supplied target is
not positive, the composer keeps the override/default factor and does not
raise. -/
theorem factor_objetivo_caracterizacion (combined : VisionResult) (entrada : Entrada)
    (base : ℚ) (mf : Option ℚ) (obj post : ℚ)
    (hpost : (predecirPrecioConImagenes combined entrada (fun _ => some base) mf
      (some obj)).precio_post_danio = some post) :
    (0 < post → 0 < obj →
      (predecirPrecioConImagenes combined entrada (fun _ => some base) mf
        (some obj)).factor_compraventa = obj / post) ∧
    (post = 0 →
      (predecirPrecioConImagenes combined entrada (fun _ => some base) mf
        (some obj)).factor_compraventa = mf.getD MARKET_factor_compraventa) ∧
    (0 < post → obj ≤ 0 →
      (predecirPrecioConImagenes combined entrada (fun _ => some base) mf
        (some obj)).factor_compraventa = mf.getD MARKET_factor_compraventa) := by
  have hdf : (predecirPrecioConImagenes combined entrada (fun _ => some base) mf
      (some obj)).precio_post_danio =
      some (base * pyOrQ (inferirDanios combined.tags combined.objects
        combined.ocr_lines).factor_danio 1) := rfl
  rw [hdf] at hpost
  have hbd : base * pyOrQ (inferirDanios combined.tags combined.objects
      combined.ocr_lines).factor_danio 1 = post := Option.some.inj hpost
  have hfac : (predecirPrecioConImagenes combined entrada (fun _ => some base) mf
      (some obj)).factor_compraventa =
      (if (base * pyOrQ (inferirDanios combined.tags combined.objects
          combined.ocr_lines).factor_danio 1 == 0) = true then
        mf.getD MARKET_factor_compraventa
       else if 0 < obj / (base * pyOrQ (inferirDanios combined.tags combined.objects
          combined.ocr_lines).factor_danio 1) then
        obj / (base * pyOrQ (inferirDanios combined.tags combined.objects
          combined.ocr_lines).factor_danio 1)
       else mf.getD MARKET_factor_compraventa) := rfl
  rw [hbd] at hfac
  refine ⟨?_, ?_, ?_⟩
  · intro hp ho
    have h0 : (post == 0) = false := beq_eq_false_iff_ne.mpr hp.ne'
    rw [hfac, h0]
    simp [div_pos ho hp]
  · intro h0
    rw [hfac, h0]
    simp
  · intro hp ho
    have h0 : (post == 0) = false := beq_eq_false_iff_ne.mpr hp.ne'
    have hq : obj / post ≤ 0 := by
      rw [div_eq_mul_inv]
      exact mul_nonpos_iff.mpr (Or.inr ⟨ho, le_of_lt (inv_pos.mpr hp)⟩)
    rw [hfac, h0]
    simp [not_lt.mpr hq]

theorem factor_objetivo_caracterizacion_witness :
    (predecirPrecioConImagenes emptyVision entradaDefecto (fun _ => some 1000000) none
      (some 440000)).factor_compraventa = 44/100 := by
  have h := (factor_objetivo_caracterizacion emptyVision entradaDefecto 1000000 none
    440000 1000000 (post_danio_sin_evidencia 1000000 none (some 440000))).1
    (by norm_num) (by norm_num)
  rw [h]
  norm_num

/-! ### C8 -/

/-- Behaviour of the `user or extracted or default` chain under Python
truthiness: a non-zero user value wins; with a falsy user value a non-zero
extracted value wins; with both falsy the hardcoded default applies. -/
theorem pyOr_chain_spec (a b : Option Int) (d : Int) :
    (∀ v : Int, a = some v → v ≠ 0 → pyOrID (pyOrOpcion a b) d = v) ∧
    (∀ w : Int, (a = none ∨ a = some 0) → b = some w → w ≠ 0 → pyOrID (pyOrOpcion a b) d = w) ∧
    ((a = none ∨ a = some 0) → (b = none ∨ b = some 0) → pyOrID (pyOrOpcion a b) d = d) := by
  refine ⟨?_, ?_, ?_⟩
  · intro v hv hv0
    subst hv
    simp [pyOrOpcion, pyOrID, hv0]
  · intro w ha hb hw0
    subst hb
    rcases ha with rfl | rfl <;> simp [pyOrOpcion, pyOrID, hw0]
  · intro ha hb
    rcases ha with rfl | rfl <;> rcases hb with rfl | rfl <;> simp [pyOrOpcion, pyOrID]

/-- C8 (counterexample): the claim says a user-supplied value is always used,
but a user-supplied RAM size of 0 is falsy under Python `or`, so with no
extracted evidence the composed feature silently becomes the default 8. -/
theorem usuario_ram_cero_ignorada :
    ({ entradaDefecto with ram_gb := some 0 } : Entrada).ram_gb = some 0 ∧
    (construirFeatures emptyVision { entradaDefecto with ram_gb := some 0 } none).ram_gb = 8 ∧
    (8 : Int) ≠ 0 := by
  refine ⟨rfl, rfl, by decide⟩

/-- C8 (amended): for RAM, storage and CPU generation the precedence is
user-supplied value → extracted value → hardcoded default (8 / 256 / 10),
except that a zero value at either level is treated as absent (Python
truthiness); the order is never reversed. -/
theorem features_precedencia (combined : VisionResult) (entrada : Entrada) :
    ((∀ v : Int, entrada.ram_gb = some v → v ≠ 0 →
      (construirFeatures combined entrada none).ram_gb = v) ∧
     (∀ w : Int, (entrada.ram_gb = none ∨ entrada.ram_gb = some 0) →
      (extraerIndicios combined.ocr_lines).ram_gb = some w → w ≠ 0 →
      (construirFeatures combined entrada none).ram_gb = w) ∧
     ((entrada.ram_gb = none ∨ entrada.ram_gb = some 0) →
      ((extraerIndicios combined.ocr_lines).ram_gb = none ∨
        (extraerIndicios combined.ocr_lines).ram_gb = some 0) →
      (construirFeatures combined entrada none).ram_gb = 8)) ∧
    ((∀ v : Int, entrada.capacidad_disco_gb = some v → v ≠ 0 →
      (construirFeatures combined entrada none).capacidad_disco_gb = v) ∧
     (∀ w : Int, (entrada.capacidad_disco_gb = none ∨ entrada.capacidad_disco_gb = some 0) →
      (extraerIndicios combined.ocr_lines).capacidad_disco_gb = some w → w ≠ 0 →
      (construirFeatures combined entrada none).capacidad_disco_gb = w) ∧
     ((entrada.capacidad_disco_gb = none ∨ entrada.capacidad_disco_gb = some 0) →
      ((extraerIndicios combined.ocr_lines).capacidad_disco_gb = none ∨
        (extraerIndicios combined.ocr_lines).capacidad_disco_gb = some 0) →
      (construirFeatures combined entrada none).capacidad_disco_gb = 256)) ∧
    ((∀ v : Int, entrada.generacion_procesador = some v → v ≠ 0 →
      (construirFeatures combined entrada none).generacion_procesador = v) ∧
     (∀ w : Int, (entrada.generacion_procesador = none ∨
        entrada.generacion_procesador = some 0) →
      (extraerIndicios combined.ocr_lines).generacion_procesador = some w → w ≠ 0 →
      (construirFeatures combined entrada none).generacion_procesador = w) ∧
     ((entrada.generacion_procesador = none ∨ entrada.generacion_procesador = some 0) →
      ((extraerIndicios combined.ocr_lines).generacion_procesador = none ∨
        (extraerIndicios combined.ocr_lines).generacion_procesador = some 0) →
      (construirFeatures combined entrada none).generacion_procesador = 10)) := by
  have hram : (construirFeatures combined entrada none).ram_gb =
      pyOrID (pyOrOpcion entrada.ram_gb (extraerIndicios combined.ocr_lines).ram_gb) 8 := rfl
  have hcap : (construirFeatures combined entrada none).capacidad_disco_gb =
      pyOrID (pyOrOpcion entrada.capacidad_disco_gb
        (extraerIndicios combined.ocr_lines).capacidad_disco_gb) 256 := rfl
  have hgen : (construirFeatures combined entrada none).generacion_procesador =
      pyOrID (pyOrOpcion entrada.generacion_procesador
        (extraerIndicios combined.ocr_lines).generacion_procesador) 10 := rfl
  refine ⟨⟨?_, ?_, ?_⟩, ⟨?_, ?_, ?_⟩, ⟨?_, ?_, ?_⟩⟩
  · intro v hv hv0
    rw [hram]
    exact (pyOr_chain_spec _ _ _).1 v hv hv0
  · intro w ha hb hw0
    rw [hram]
    exact (pyOr_chain_spec _ _ _).2.1 w ha hb hw0
  · intro ha hb
    rw [hram]
    exact (pyOr_chain_spec _ _ _).2.2 ha hb
  · intro v hv hv0
    rw [hcap]
    exact (pyOr_chain_spec _ _ _).1 v hv hv0
  · intro w ha hb hw0
    rw [hcap]
    exact (pyOr_chain_spec _ _ _).2.1 w ha hb hw0
  · intro ha hb
    rw [hcap]
    exact (pyOr_chain_spec _ _ _).2.2 ha hb
  · intro v hv hv0
    rw [hgen]
    exact (pyOr_chain_spec _ _ _).1 v hv hv0
  · intro w ha hb hw0
    rw [hgen]
    exact (pyOr_chain_spec _ _ _).2.1 w ha hb hw0
  · intro ha hb
    rw [hgen]
    exact (pyOr_chain_spec _ _ _).2.2 ha hb

theorem features_precedencia_witness :
    (construirFeatures emptyVision { entradaDefecto with ram_gb := some 16 } none).ram_gb = 16 :=
  (features_precedencia emptyVision { entradaDefecto with ram_gb := some 16 }).1.1 16 rfl
    (by decide)

/-! ### C9 -/

theorem avaluo_mensaje_eq (sin_minimo minimo : Option ℚ) (pf : ℚ) (proc : Option String)
    (ssd : Int) (marca : Option String) :
    (avaluoDecision sin_minimo minimo pf proc ssd marca).mensaje =
      (if (avaluoDecision sin_minimo minimo pf proc ssd marca).bloqueado then mensajeBloqueo
       else "Tu avalúo del pc enviado es de $" ++ formatMiles (pyRound pf) ++
         ". ¿Deseas continuar con el contrato?") := rfl

theorem avaluo_advertencias_eq (sin_minimo minimo : Option ℚ) (pf : ℚ)
    (proc : Option String) (ssd : Int) (marca : Option String) :
    (avaluoDecision sin_minimo minimo pf proc ssd marca).advertencias =
      ((if pyTruthyStr proc && !(cpuIsKnown (proc.getD "")) then [advCpuDesconocido]
        else []) ++
       (if (cpuExcluidoPolitica (pyOrStr proc)).2 != "" then
         [(cpuExcluidoPolitica (pyOrStr proc)).2] else []) ++
       (if (discoExcluidoPolitica ssd).2 != "" then [(discoExcluidoPolitica ssd).2]
        else []) ++
       (if pyTruthyStr marca && (inferBrand (pyOrStr marca)).isNone then
         [advMarcaDesconocida] else [])) := rfl

/-- C9: any two blocked decisions carry the identical fixed decline message
(the message reveals nothing about which gate fired); the per-gate reasons
appear in the advisories list; and a non-blocked decision's message embeds
the rounded final price with the continuation prompt. -/
theorem mensaje_uniforme_en_bloqueo :
    (∀ (s1 m1 : Option ℚ) (p1 : ℚ) (pr1 : Option String) (d1 : Int) (b1 : Option String)
      (s2 m2 : Option ℚ) (p2 : ℚ) (pr2 : Option String) (d2 : Int) (b2 : Option String),
      (avaluoDecision s1 m1 p1 pr1 d1 b1).bloqueado = true →
      (avaluoDecision s2 m2 p2 pr2 d2 b2).bloqueado = true →
      (avaluoDecision s1 m1 p1 pr1 d1 b1).mensaje =
        (avaluoDecision s2 m2 p2 pr2 d2 b2).mensaje) ∧
    (∀ (s m : Option ℚ) (p : ℚ) (pr : Option String) (d : Int) (b : Option String),
      (avaluoDecision s m p pr d b).bloqueado = true →
      (avaluoDecision s m p pr d b).mensaje = mensajeBloqueo ∧
      ((cpuExcluidoPolitica (pyOrStr pr)).2 ≠ "" →
        (cpuExcluidoPolitica (pyOrStr pr)).2 ∈ (avaluoDecision s m p pr d b).advertencias) ∧
      ((discoExcluidoPolitica d).2 ≠ "" →
        (discoExcluidoPolitica d).2 ∈ (avaluoDecision s m p pr d b).advertencias)) ∧
    (∀ (s m : Option ℚ) (p : ℚ) (pr : Option String) (d : Int) (b : Option String),
      (avaluoDecision s m p pr d b).bloqueado = false →
      (avaluoDecision s m p pr d b).mensaje =
        "Tu avalúo del pc enviado es de $" ++ formatMiles (pyRound p) ++
          ". ¿Deseas continuar con el contrato?") := by
  refine ⟨?_, ?_, ?_⟩
  · intro s1 m1 p1 pr1 d1 b1 s2 m2 p2 pr2 d2 b2 h1 h2
    rw [avaluo_mensaje_eq, h1, avaluo_mensaje_eq, h2]
    simp
  · intro s m p pr d b h
    refine ⟨?_, ?_, ?_⟩
    · rw [avaluo_mensaje_eq, h]
      simp
    · intro hcpu
      rw [avaluo_advertencias_eq]
      have hb : ((cpuExcluidoPolitica (pyOrStr pr)).2 != "") = true := bne_iff_ne.mpr hcpu
      rw [hb]
      simp [List.mem_append]
    · intro hdisco
      rw [avaluo_advertencias_eq]
      have hb : ((discoExcluidoPolitica d).2 != "") = true := bne_iff_ne.mpr hdisco
      rw [hb]
      simp [List.mem_append]
  · intro s m p pr d b h
    rw [avaluo_mensaje_eq, h]
    simp

theorem pyRound_int (n : Int) : pyRound ((n : Int) : ℚ) = n := by
  unfold pyRound
  simp only [Int.floor_intCast, sub_self]
  norm_num

theorem mensaje_uniforme_en_bloqueo_witness :
    (avaluoDecision none none 0 none 0 none).mensaje =
      (avaluoDecision none none 0 (some "celeron") 1 none).mensaje ∧
    (avaluoDecision none none 880000 none 1 none).mensaje =
      "Tu avalúo del pc enviado es de $880,000. ¿Deseas continuar con el contrato?" := by
  constructor
  · exact mensaje_uniforme_en_bloqueo.1 none none 0 none 0 none none none 0 (some "celeron")
      1 none (by decide) (by decide)
  · rw [mensaje_uniforme_en_bloqueo.2.2 none none 880000 none 1 none (by decide)]
    have hr : pyRound (880000 : ℚ) = 880000 := by
      have h := pyRound_int 880000
      norm_num at h
      exact h
    rw [hr]
    have hnd : natDigitsRev 880000 = ['0', '0', '0', '0', '8', '8'] := by
      simp [natDigitsRev, digitChar]
    have h0 : formatMiles (880000 : Int) =
        ⟨(chunk3 (natDigitsRev (Int.toNat 880000))).reverse⟩ := by
      unfold formatMiles
      rw [if_neg (by norm_num)]
    have ht : Int.toNat 880000 = 880000 := rfl
    rw [h0, ht, hnd]
    decide

/-! ### C10 -/

/-- C10 (counterexample): with `es_ssd` omitted by the caller, the feature
dictionary still carries the `es_ssd` key (with an absent value), so the
predictor's missing-feature check passes and the failure is the generic
prediction error — not a missing-feature report as the claim states. -/
theorem es_ssd_omitido_error_no_faltante :
    predecirPrecio modeloCaracteristicas (fun _ => 0)
      (featuresToDict (construirFeatures emptyVision
        { entradaDefecto with es_ssd := none } none)) =
      PredictOutcome.errorDuringPredict ∧
    PredictOutcome.errorDuringPredict ≠ PredictOutcome.missingFeature "es_ssd" := by
  refine ⟨rfl, fun h => PredictOutcome.noConfusion h⟩

/-- C10 (amended): the composed `es_ssd` feature is the caller's value
verbatim, with no evidence fallback and no default; when the caller omits it
the dictionary entry is present but absent-valued, the missing-feature check
does not fire, and the prediction attempt fails into the generic
no-price outcome. -/
theorem es_ssd_passthrough (combined : VisionResult) (entrada : Entrada)
    (predict : List ℚ → ℚ) :
    (construirFeatures combined entrada none).es_ssd = entrada.es_ssd ∧
    (entrada.es_ssd = none →
      predecirPrecio modeloCaracteristicas predict
        (featuresToDict (construirFeatures combined entrada none)) =
        PredictOutcome.errorDuringPredict) := by
  refine ⟨rfl, ?_⟩
  intro h
  have hf : (construirFeatures combined entrada none).es_ssd = none :=
    (rfl : (construirFeatures combined entrada none).es_ssd = entrada.es_ssd).trans h
  cases hm : (construirFeatures combined entrada none).marca_score with
  | none =>
    simp only [featuresToDict, hf, hm, Option.map_none']
    rfl
  | some v =>
    simp only [featuresToDict, hf, hm, Option.map_none', Option.map_some']
    rfl

theorem es_ssd_passthrough_witness :
    (construirFeatures emptyVision { entradaDefecto with es_ssd := none } none).es_ssd =
      none ∧
    predecirPrecio modeloCaracteristicas (fun _ => (1 : ℚ))
      (featuresToDict (construirFeatures emptyVision
        { entradaDefecto with es_ssd := none } none)) =
      PredictOutcome.errorDuringPredict := by
  have h := es_ssd_passthrough emptyVision { entradaDefecto with es_ssd := none }
    (fun _ => (1 : ℚ))
  exact ⟨h.1.trans rfl, h.2 rfl⟩
